import Mathlib

/-!
The driver idevice_debug_ncm: binding policy and link bootstrap of the iDevice debug CDC-NCM driver

A shallow embedding of `drivers/net/usb/idevice_debug_ncm.c`.

* Pointers (`struct net_device *`, `struct usbnet *`, `struct usb_interface *`) are
  addresses, natural numbers.
* The kernel memory the driver reads and writes is the record `Kernel`; the field the
  driver itself writes, `dev->net->netdev_ops`, is explicit, everything the collaborators
  own is opaque.
* The functions the driver calls but does not define (`usbnet_open`, `usbnet_link_change`,
  `cdc_ncm_select_altsetting`, `cdc_ncm_bind_common`, `netdev_priv`) are the fields of
  `Collab`: every theorem quantifies over all of them.
* The constants of the kernel headers the file includes are the fields of `Headers`: every
  theorem quantifies over all their values.
* Each call of a collaborator is recorded, in order, in `State.trace`.
-/

namespace IdeviceDebugNcm

/-! ## Constants -/

/-- The `#define USB_VENDOR_APPLE 0x05ac` of the source. -/
def USB_VENDOR_APPLE : Nat := 0x05ac

/-- The constants the source takes from the headers it includes (`linux/usb/usbnet.h`,
`linux/usb/cdc.h`, `linux/usb/cdc_ncm.h`, `linux/usb.h`, errno). Their values are not part
of the driver; they are parameters of the embedding. -/
structure Headers where
  ENODEV : Int
  CDC_NCM_COMM_ALTSETTING_NCM : Int
  CDC_NCM_DATA_ALTSETTING_NCM : Int
  CDC_NCM_FLAG_NO_NOTIFICATION_ENDPOINT : Nat
  FLAG_POINTTOPOINT : Nat
  FLAG_NO_SETINT : Nat
  FLAG_MULTI_PACKET : Nat
  FLAG_LINK_INTR : Nat
  FLAG_ETHER : Nat
  USB_CLASS_COMM : Nat
  USB_CDC_SUBCLASS_NCM : Nat
  USB_CDC_PROTO_NONE : Nat

/-! ## Function symbols and tables of function pointers -/

/-- The functions the source names, as the targets of function pointers. -/
inductive Sym where
  | idevice_debug_ncm_open
  | idevice_debug_ncm_bind
  | usbnet_open
  | usbnet_link_change
  | usbnet_stop
  | usbnet_start_xmit
  | usbnet_tx_timeout
  | usbnet_set_rx_mode
  | dev_get_tstats64
  | cdc_ncm_change_mtu
  | eth_mac_addr
  | eth_validate_addr
  | cdc_ncm_select_altsetting
  | cdc_ncm_bind_common
  | cdc_ncm_unbind
  | usbnet_manage_power
  | cdc_ncm_rx_fixup
  | cdc_ncm_tx_fixup
  | usbnet_cdc_update_filter
  | usbnet_probe
  | usbnet_disconnect
  | usbnet_suspend
  | usbnet_resume
  deriving DecidableEq, Repr

/-- Whether a function is defined by this source file (the two functions with a body in
`idevice_debug_ncm.c`); every other symbol comes from a collaborator. -/
def Sym.defined_here : Sym → Bool
  | .idevice_debug_ncm_open => true
  | .idevice_debug_ncm_bind => true
  | _ => false

/-- The members of `struct net_device_ops` the source initialises. -/
inductive Ndo where
  | ndo_open
  | ndo_stop
  | ndo_start_xmit
  | ndo_tx_timeout
  | ndo_set_rx_mode
  | ndo_get_stats64
  | ndo_change_mtu
  | ndo_set_mac_address
  | ndo_validate_addr
  deriving DecidableEq, Repr

/-- The designated initialisers of `idevice_debug_ncm_netdev_ops`, in source order: member
and the function it points to. A member that is not listed is a null pointer. -/
def idevice_debug_ncm_netdev_ops : List (Ndo × Sym) :=
  [ (.ndo_open, .idevice_debug_ncm_open),
    (.ndo_stop, .usbnet_stop),
    (.ndo_start_xmit, .usbnet_start_xmit),
    (.ndo_tx_timeout, .usbnet_tx_timeout),
    (.ndo_set_rx_mode, .usbnet_set_rx_mode),
    (.ndo_get_stats64, .dev_get_tstats64),
    (.ndo_change_mtu, .cdc_ncm_change_mtu),
    (.ndo_set_mac_address, .eth_mac_addr),
    (.ndo_validate_addr, .eth_validate_addr) ]

/-- The value of a `const struct net_device_ops *`: the address of this driver's table, or
of some other table. -/
inductive OpsRef where
  | idevice_debug_ncm_netdev_ops
  | foreign (addr : Nat)
  deriving DecidableEq, Repr

/-! ## Kernel state, collaborators and the call trace -/

/-- The kernel memory the driver works on. `net dev` is `dev->net`, `netdev_ops n` is the
`netdev_ops` member of the `struct net_device` at `n`. `usbnet` stands for all other state
of the adapter framework and the NCM framing layer, `usb` for the state of the USB
interfaces; both are opaque to the driver. -/
structure Kernel where
  net : Nat → Nat
  netdev_ops : Nat → OpsRef
  usbnet : Nat
  usb : Nat

/-- One call of a collaborator, with its arguments. -/
inductive Call where
  | usbnet_open (net : Nat)
  | usbnet_link_change (dev : Nat) (link : Nat) (need_reset : Nat)
  | cdc_ncm_select_altsetting (intf : Nat)
  | cdc_ncm_bind_common (dev : Nat) (intf : Nat) (data_altsetting : Int) (flags : Nat)
  deriving DecidableEq, Repr

/-- Whether a recorded call is a call of the setup delegate `cdc_ncm_bind_common`. -/
def Call.is_bind_common : Call → Bool
  | .cdc_ncm_bind_common _ _ _ _ => true
  | _ => false

/-- Whether a recorded call is a call of `usbnet_open`. -/
def Call.is_usbnet_open : Call → Bool
  | .usbnet_open _ => true
  | _ => false

/-- Whether a recorded call is a call of `usbnet_link_change`. -/
def Call.is_link_change : Call → Bool
  | .usbnet_link_change _ _ _ => true
  | _ => false

/-- The functions the driver calls and does not define. `netdev_priv` is address
arithmetic. `usbnet_open`, `usbnet_link_change` and `cdc_ncm_bind_common` may change any
part of the kernel state. `cdc_ncm_select_altsetting` receives the interface only: it
reads and may change the USB-side state, and returns the altsetting it selected. -/
structure Collab where
  netdev_priv : Nat → Nat
  usbnet_open : Nat → Kernel → Int × Kernel
  usbnet_link_change : Nat → Nat → Nat → Kernel → Kernel
  cdc_ncm_select_altsetting : Nat → Nat → Int × Nat
  cdc_ncm_bind_common : Nat → Nat → Int → Nat → Kernel → Int × Kernel

/-- The kernel memory together with the collaborator calls made so far, oldest first. -/
structure State where
  kernel : Kernel
  trace : List Call

/-- The call `usbnet_open(net)`: recorded, then run. -/
def call_usbnet_open (c : Collab) (net : Nat) (s : State) : Int × State :=
  let r := c.usbnet_open net s.kernel
  (r.1, { kernel := r.2, trace := s.trace ++ [Call.usbnet_open net] })

/-- The call `usbnet_link_change(dev, link, need_reset)`: recorded, then run. -/
def call_usbnet_link_change (c : Collab) (dev link need_reset : Nat) (s : State) : State :=
  { kernel := c.usbnet_link_change dev link need_reset s.kernel,
    trace := s.trace ++ [Call.usbnet_link_change dev link need_reset] }

/-- The call `cdc_ncm_select_altsetting(intf)`: recorded, then run on the USB-side state. -/
def call_cdc_ncm_select_altsetting (c : Collab) (intf : Nat) (s : State) : Int × State :=
  let r := c.cdc_ncm_select_altsetting intf s.kernel.usb
  (r.1, { kernel := { s.kernel with usb := r.2 },
          trace := s.trace ++ [Call.cdc_ncm_select_altsetting intf] })

/-- The call `cdc_ncm_bind_common(dev, intf, data_altsetting, flags)`: recorded, then run. -/
def call_cdc_ncm_bind_common (c : Collab) (dev intf : Nat) (data_altsetting : Int)
    (flags : Nat) (s : State) : Int × State :=
  let r := c.cdc_ncm_bind_common dev intf data_altsetting flags s.kernel
  (r.1, { kernel := r.2,
          trace := s.trace ++ [Call.cdc_ncm_bind_common dev intf data_altsetting flags] })

/-- The assignment `dev->net->netdev_ops = ops`. -/
def set_netdev_ops (dev : Nat) (ops : OpsRef) (s : State) : State :=
  { s with kernel :=
      { s.kernel with
        netdev_ops := Function.update s.kernel.netdev_ops (s.kernel.net dev) ops } }

/-- The value of `dev->net->netdev_ops`. -/
def get_netdev_ops (dev : Nat) (s : State) : OpsRef :=
  s.kernel.netdev_ops (s.kernel.net dev)

/-! ## The driver -/

/-- The function `idevice_debug_ncm_open(net)`: `usbnet_open`, then the link is declared up
with `usbnet_link_change(dev, 1, 0)`, then the status of `usbnet_open` is returned. -/
def idevice_debug_ncm_open (c : Collab) (net : Nat) (s : State) : Int × State :=
  let dev := c.netdev_priv net
  let r := call_usbnet_open c net s
  let retval := r.1
  let s1 := call_usbnet_link_change c dev 1 0 r.2
  (retval, s1)

/-- The function `idevice_debug_ncm_bind(dev, intf)`: `-ENODEV` when the selector does not
answer `CDC_NCM_COMM_ALTSETTING_NCM`; otherwise `cdc_ncm_bind_common`, then the assignment
of the operation table, then the status of `cdc_ncm_bind_common`. -/
def idevice_debug_ncm_bind (h : Headers) (c : Collab) (dev intf : Nat) (s : State) :
    Int × State :=
  let r0 := call_cdc_ncm_select_altsetting c intf s
  if r0.1 ≠ h.CDC_NCM_COMM_ALTSETTING_NCM then
    (-h.ENODEV, r0.2)
  else
    let r1 := call_cdc_ncm_bind_common c dev intf h.CDC_NCM_DATA_ALTSETTING_NCM
      h.CDC_NCM_FLAG_NO_NOTIFICATION_ENDPOINT r0.2
    let retval := r1.1
    let s2 := set_netdev_ops dev OpsRef.idevice_debug_ncm_netdev_ops r1.2
    (retval, s2)

/-- The record `struct driver_info`, with the members the source initialises. -/
structure driver_info where
  description : String
  flags : Nat
  bind : Sym
  unbind : Sym
  manage_power : Sym
  rx_fixup : Sym
  tx_fixup : Sym
  set_rx_mode : Sym

/-- The driver-info record `cdc_ncm_info` of the source. -/
def cdc_ncm_info (h : Headers) : driver_info :=
  { description := "iDevice Debug NCM",
    flags := h.FLAG_POINTTOPOINT ||| h.FLAG_NO_SETINT ||| h.FLAG_MULTI_PACKET
             ||| h.FLAG_LINK_INTR ||| h.FLAG_ETHER,
    bind := Sym.idevice_debug_ncm_bind,
    unbind := Sym.cdc_ncm_unbind,
    manage_power := Sym.usbnet_manage_power,
    rx_fixup := Sym.cdc_ncm_rx_fixup,
    tx_fixup := Sym.cdc_ncm_tx_fixup,
    set_rx_mode := Sym.usbnet_cdc_update_filter }

/-! ## The device match table -/

/-- The value of the `driver_info` member of a match entry: null, or the address of
`cdc_ncm_info`. -/
inductive InfoRef where
  | null
  | cdc_ncm_info
  deriving DecidableEq, Repr

/-- The record `struct usb_device_id`, with the members the source sets. -/
structure usb_device_id where
  idVendor : Nat
  bInterfaceClass : Nat
  bInterfaceSubClass : Nat
  bInterfaceProtocol : Nat
  driver_info : InfoRef
  deriving DecidableEq, Repr

/-- The empty initialiser that ends a match table: every member zero. -/
def usb_device_id.empty : usb_device_id :=
  { idVendor := 0, bInterfaceClass := 0, bInterfaceSubClass := 0, bInterfaceProtocol := 0,
    driver_info := InfoRef.null }

/-- Modelled from the spec: the macro `USB_VENDOR_AND_INTERFACE_INFO` of `linux/usb.h` is
not part of the source; following the Device Match Entry of the data model it fills the
vendor id and the interface class, subclass and protocol of an entry, to which the source
adds `driver_info`. -/
def USB_VENDOR_AND_INTERFACE_INFO (vend cl sc pr : Nat) (info : InfoRef) : usb_device_id :=
  { idVendor := vend, bInterfaceClass := cl, bInterfaceSubClass := sc,
    bInterfaceProtocol := pr, driver_info := info }

/-- The table `idevice_debug_ncm_devs` of the source: one entry and the empty entry. -/
def idevice_debug_ncm_devs (h : Headers) : List usb_device_id :=
  [ USB_VENDOR_AND_INTERFACE_INFO USB_VENDOR_APPLE h.USB_CLASS_COMM h.USB_CDC_SUBCLASS_NCM
      h.USB_CDC_PROTO_NONE InfoRef.cdc_ncm_info,
    usb_device_id.empty ]

/-- What the USB core knows of a device and one of its interfaces when it looks for a
driver: the vendor id and the class, subclass and protocol of the interface. -/
structure usb_tuple where
  idVendor : Nat
  bInterfaceClass : Nat
  bInterfaceSubClass : Nat
  bInterfaceProtocol : Nat
  deriving DecidableEq, Repr

/-- Modelled from the spec: the comparison of the USB core is not part of the source; the
spec gives it as an exact tuple match on vendor id and interface class, subclass and
protocol. -/
def usb_match_one (id : usb_device_id) (t : usb_tuple) : Bool :=
  id.idVendor == t.idVendor && id.bInterfaceClass == t.bInterfaceClass
    && id.bInterfaceSubClass == t.bInterfaceSubClass
    && id.bInterfaceProtocol == t.bInterfaceProtocol

/-- Modelled from the spec: the table walk of the USB core is not part of the source; the
entries are tried in order and the empty entry ends the table. The result is the entry
that claims the interface, if there is one. -/
def usb_match_id : List usb_device_id → usb_tuple → Option usb_device_id
  | [], _ => none
  | id :: rest, t =>
    if id = usb_device_id.empty then none
    else if usb_match_one id t then some id
    else usb_match_id rest t

/-! ## Concrete instances, for evaluation -/

/-- A concrete assignment of the header constants: the values of the mainline kernel
headers, and bit 4 for the flag that mainline does not have. -/
def sample_headers : Headers :=
  { ENODEV := 19,
    CDC_NCM_COMM_ALTSETTING_NCM := 0,
    CDC_NCM_DATA_ALTSETTING_NCM := 1,
    CDC_NCM_FLAG_NO_NOTIFICATION_ENDPOINT := 0x10,
    FLAG_POINTTOPOINT := 0x1000,
    FLAG_NO_SETINT := 0x0010,
    FLAG_MULTI_PACKET := 0x2000,
    FLAG_LINK_INTR := 0x0800,
    FLAG_ETHER := 0x0020,
    USB_CLASS_COMM := 2,
    USB_CDC_SUBCLASS_NCM := 0x0d,
    USB_CDC_PROTO_NONE := 0 }

/-- A concrete collaborator. The selector answers the altsetting stored in the USB-side
state. `cdc_ncm_bind_common` and `usbnet_open` succeed when the opaque adapter state is 0
and fail with its negation otherwise; on success `cdc_ncm_bind_common` installs a table of
its own (address 1). `usbnet_link_change` records the link state in the adapter state. -/
def sample_collab : Collab :=
  { netdev_priv := fun net => net + 64,
    usbnet_open := fun _ k => (-(k.usbnet : Int), k),
    usbnet_link_change := fun _ link _ k => { k with usbnet := k.usbnet + 1000 * link },
    cdc_ncm_select_altsetting := fun _ usb => ((usb : Int), usb),
    cdc_ncm_bind_common := fun dev _ _ _ k =>
      if k.usbnet = 0 then
        (0, { k with netdev_ops := Function.update k.netdev_ops (k.net dev) (OpsRef.foreign 1) })
      else (-(k.usbnet : Int), k) }

/-- A concrete collaborator whose every call leaves a mark in the kernel state. The
selector answers the altsetting stored in the USB-side state and adds 100 to that state.
`cdc_ncm_bind_common` succeeds, installs a table of its own (address 1) and sets the adapter
state to the USB-side state it sees, plus 7, plus the flags it was given. `usbnet_open`
succeeds and adds 1 to the adapter state; `usbnet_link_change` adds 1000 times the link
state. -/
def marking_collab : Collab :=
  { netdev_priv := fun net => net + 64,
    usbnet_open := fun _ k => (0, { k with usbnet := k.usbnet + 1 }),
    usbnet_link_change := fun _ link _ k => { k with usbnet := k.usbnet + 1000 * link },
    cdc_ncm_select_altsetting := fun _ usb => ((usb : Int), usb + 100),
    cdc_ncm_bind_common := fun dev _ _ flags k =>
      (0, { k with
            usbnet := k.usb + 7 + flags,
            netdev_ops := Function.update k.netdev_ops (k.net dev) (OpsRef.foreign 1) }) }

/-- A concrete kernel memory: `dev->net` is `dev - 64`, every `netdev_ops` points to a
table at address 0. -/
def sample_kernel (usbnet usb : Nat) : Kernel :=
  { net := fun dev => dev - 64, netdev_ops := fun _ => OpsRef.foreign 0,
    usbnet := usbnet, usb := usb }

/-- A concrete state: the sample kernel and no call made yet. -/
def sample_state (usbnet usb : Nat) : State :=
  { kernel := sample_kernel usbnet usb, trace := [] }

/-! ## Unfolding lemmas -/

/-- The state after `idevice_debug_ncm_open`, written out. -/
theorem open_unfold (c : Collab) (net : Nat) (s : State) :
    idevice_debug_ncm_open c net s =
      ((c.usbnet_open net s.kernel).1,
       { kernel := c.usbnet_link_change (c.netdev_priv net) 1 0 (c.usbnet_open net s.kernel).2,
         trace := s.trace ++ [Call.usbnet_open net]
                    ++ [Call.usbnet_link_change (c.netdev_priv net) 1 0] }) := by
  rfl

/-- The result of `idevice_debug_ncm_bind` when the selector does not answer the NCM
altsetting. -/
theorem bind_unfold_reject (h : Headers) (c : Collab) (dev intf : Nat) (s : State)
    (hsel : (c.cdc_ncm_select_altsetting intf s.kernel.usb).1 ≠ h.CDC_NCM_COMM_ALTSETTING_NCM) :
    idevice_debug_ncm_bind h c dev intf s =
      (-h.ENODEV, (call_cdc_ncm_select_altsetting c intf s).2) := by
  unfold idevice_debug_ncm_bind
  have h0 : (call_cdc_ncm_select_altsetting c intf s).1
      = (c.cdc_ncm_select_altsetting intf s.kernel.usb).1 := rfl
  simp only [h0, if_pos hsel]

/-- The result of `idevice_debug_ncm_bind` when the selector answers the NCM altsetting. -/
theorem bind_unfold_accept (h : Headers) (c : Collab) (dev intf : Nat) (s : State)
    (hsel : (c.cdc_ncm_select_altsetting intf s.kernel.usb).1 = h.CDC_NCM_COMM_ALTSETTING_NCM) :
    idevice_debug_ncm_bind h c dev intf s =
      ((call_cdc_ncm_bind_common c dev intf h.CDC_NCM_DATA_ALTSETTING_NCM
          h.CDC_NCM_FLAG_NO_NOTIFICATION_ENDPOINT (call_cdc_ncm_select_altsetting c intf s).2).1,
       set_netdev_ops dev OpsRef.idevice_debug_ncm_netdev_ops
        (call_cdc_ncm_bind_common c dev intf h.CDC_NCM_DATA_ALTSETTING_NCM
          h.CDC_NCM_FLAG_NO_NOTIFICATION_ENDPOINT
          (call_cdc_ncm_select_altsetting c intf s).2).2) := by
  unfold idevice_debug_ncm_bind
  have h0 : (call_cdc_ncm_select_altsetting c intf s).1
      = (c.cdc_ncm_select_altsetting intf s.kernel.usb).1 := rfl
  have hn : ¬ (c.cdc_ncm_select_altsetting intf s.kernel.usb).1
      ≠ h.CDC_NCM_COMM_ALTSETTING_NCM := fun hne => hne hsel
  simp only [h0, if_neg hn]

/-- The trace after `idevice_debug_ncm_bind` when the selector answers the NCM altsetting. -/
theorem bind_trace_accept (h : Headers) (c : Collab) (dev intf : Nat) (s : State)
    (hsel : (c.cdc_ncm_select_altsetting intf s.kernel.usb).1 = h.CDC_NCM_COMM_ALTSETTING_NCM) :
    (idevice_debug_ncm_bind h c dev intf s).2.trace =
      s.trace ++ [Call.cdc_ncm_select_altsetting intf,
        Call.cdc_ncm_bind_common dev intf h.CDC_NCM_DATA_ALTSETTING_NCM
          h.CDC_NCM_FLAG_NO_NOTIFICATION_ENDPOINT] := by
  rw [bind_unfold_accept h c dev intf s hsel]
  simp [set_netdev_ops, call_cdc_ncm_bind_common, call_cdc_ncm_select_altsetting]

/-- The trace after `idevice_debug_ncm_bind` when the selector does not answer the NCM
altsetting. -/
theorem bind_trace_reject (h : Headers) (c : Collab) (dev intf : Nat) (s : State)
    (hsel : (c.cdc_ncm_select_altsetting intf s.kernel.usb).1 ≠ h.CDC_NCM_COMM_ALTSETTING_NCM) :
    (idevice_debug_ncm_bind h c dev intf s).2.trace =
      s.trace ++ [Call.cdc_ncm_select_altsetting intf] := by
  rw [bind_unfold_reject h c dev intf s hsel]
  rfl

/-! ## Open: the link bootstrap -/

/-- C1: every call of `idevice_debug_ncm_open` runs `usbnet_open(net)` and then
`usbnet_link_change(netdev_priv(net), 1, 0)`, whatever status `usbnet_open` returns: the
kernel state after open is the state `usbnet_link_change`, with link 1 and need_reset 0,
makes of the state `usbnet_open` left, and the call trace gains exactly these two calls, in
this order, each exactly once. -/
theorem open_call_trace (c : Collab) (net : Nat) (s : State) :
    (idevice_debug_ncm_open c net s).2.kernel =
        c.usbnet_link_change (c.netdev_priv net) 1 0 (c.usbnet_open net s.kernel).2
    ∧ (idevice_debug_ncm_open c net s).2.trace =
        s.trace ++ [Call.usbnet_open net, Call.usbnet_link_change (c.netdev_priv net) 1 0]
    ∧ (((idevice_debug_ncm_open c net s).2.trace.drop s.trace.length).countP
        Call.is_usbnet_open = 1)
    ∧ (((idevice_debug_ncm_open c net s).2.trace.drop s.trace.length).countP
        Call.is_link_change = 1) := by
  rw [open_unfold]
  simp [Call.is_usbnet_open, Call.is_link_change, List.countP_cons]

/-- Open at concrete inputs: with `usbnet_open` failing with -12 the link is still declared
up (the adapter state gains 1000), and with the marking collaborator both calls leave
their mark, `usbnet_open` first. -/
theorem open_sample_link_up :
    (idevice_debug_ncm_open sample_collab 5 (sample_state 12 0)).1 = -12
    ∧ (idevice_debug_ncm_open sample_collab 5 (sample_state 12 0)).2.kernel.usbnet = 1012
    ∧ (idevice_debug_ncm_open sample_collab 5 (sample_state 12 0)).2.trace =
        [Call.usbnet_open 5, Call.usbnet_link_change 69 1 0]
    ∧ (idevice_debug_ncm_open marking_collab 5 (sample_state 0 0)).2.kernel.usbnet = 1001 := by
  decide

/-- C2: the value `idevice_debug_ncm_open` returns is the value the delegated
`usbnet_open(net)` returned on the state open was entered with; what `usbnet_link_change`
does has no part in it. -/
theorem open_returns_usbnet_open_status (c : Collab) (net : Nat) (s : State) :
    (idevice_debug_ncm_open c net s).1 = (c.usbnet_open net s.kernel).1 := by
  rw [open_unfold]

/-! ## Bind -/

/-- C3: when `cdc_ncm_select_altsetting(intf)` returns anything other than
`CDC_NCM_COMM_ALTSETTING_NCM`, bind returns `-ENODEV`, the only collaborator call it makes is
the selector, and `cdc_ncm_bind_common` is called zero times. -/
theorem bind_reject_enodev (h : Headers) (c : Collab) (dev intf : Nat) (s : State)
    (hsel : (c.cdc_ncm_select_altsetting intf s.kernel.usb).1 ≠ h.CDC_NCM_COMM_ALTSETTING_NCM) :
    (idevice_debug_ncm_bind h c dev intf s).1 = -h.ENODEV
    ∧ (idevice_debug_ncm_bind h c dev intf s).2.trace =
        s.trace ++ [Call.cdc_ncm_select_altsetting intf]
    ∧ (((idevice_debug_ncm_bind h c dev intf s).2.trace.drop s.trace.length).countP
        Call.is_bind_common = 0) := by
  refine ⟨?_, bind_trace_reject h c dev intf s hsel, ?_⟩
  · rw [bind_unfold_reject h c dev intf s hsel]
  · rw [bind_trace_reject h c dev intf s hsel]
    simp [Call.is_bind_common]

/-- C4: when the selector returns `CDC_NCM_COMM_ALTSETTING_NCM`, bind runs
`cdc_ncm_bind_common` exactly once, on the state the selector left, with the same `dev` and
`intf`, the data altsetting `CDC_NCM_DATA_ALTSETTING_NCM` and a flags argument in which
`CDC_NCM_FLAG_NO_NOTIFICATION_ENDPOINT` is set: bind returns what that call returned, the
kernel state after bind is the state that call left with `dev->net->netdev_ops` assigned,
and the call trace gains the selector call and this one delegate call. In every execution
of bind, every call of `cdc_ncm_bind_common` it makes has these arguments, so none has the
flag cleared. -/
theorem bind_accept_calls_delegate (h : Headers) (c : Collab) (dev intf : Nat) (s : State) :
    ((c.cdc_ncm_select_altsetting intf s.kernel.usb).1 = h.CDC_NCM_COMM_ALTSETTING_NCM →
      (idevice_debug_ncm_bind h c dev intf s).1 =
          (c.cdc_ncm_bind_common dev intf h.CDC_NCM_DATA_ALTSETTING_NCM
            h.CDC_NCM_FLAG_NO_NOTIFICATION_ENDPOINT
            { s.kernel with usb := (c.cdc_ncm_select_altsetting intf s.kernel.usb).2 }).1
      ∧ (idevice_debug_ncm_bind h c dev intf s).2.kernel =
          { (c.cdc_ncm_bind_common dev intf h.CDC_NCM_DATA_ALTSETTING_NCM
              h.CDC_NCM_FLAG_NO_NOTIFICATION_ENDPOINT
              { s.kernel with
                usb := (c.cdc_ncm_select_altsetting intf s.kernel.usb).2 }).2 with
            netdev_ops :=
              Function.update
                (c.cdc_ncm_bind_common dev intf h.CDC_NCM_DATA_ALTSETTING_NCM
                  h.CDC_NCM_FLAG_NO_NOTIFICATION_ENDPOINT
                  { s.kernel with
                    usb := (c.cdc_ncm_select_altsetting intf s.kernel.usb).2 }).2.netdev_ops
                ((c.cdc_ncm_bind_common dev intf h.CDC_NCM_DATA_ALTSETTING_NCM
                  h.CDC_NCM_FLAG_NO_NOTIFICATION_ENDPOINT
                  { s.kernel with
                    usb := (c.cdc_ncm_select_altsetting intf s.kernel.usb).2 }).2.net dev)
                OpsRef.idevice_debug_ncm_netdev_ops }
      ∧ (idevice_debug_ncm_bind h c dev intf s).2.trace =
          s.trace ++ [Call.cdc_ncm_select_altsetting intf,
            Call.cdc_ncm_bind_common dev intf h.CDC_NCM_DATA_ALTSETTING_NCM
              h.CDC_NCM_FLAG_NO_NOTIFICATION_ENDPOINT]
      ∧ (((idevice_debug_ncm_bind h c dev intf s).2.trace.drop s.trace.length).countP
          Call.is_bind_common = 1))
    ∧ (∀ d i a f, Call.cdc_ncm_bind_common d i a f ∈
          (idevice_debug_ncm_bind h c dev intf s).2.trace.drop s.trace.length →
        d = dev ∧ i = intf ∧ a = h.CDC_NCM_DATA_ALTSETTING_NCM
          ∧ f &&& h.CDC_NCM_FLAG_NO_NOTIFICATION_ENDPOINT
              = h.CDC_NCM_FLAG_NO_NOTIFICATION_ENDPOINT) := by
  constructor
  · intro hsel
    refine ⟨?_, ?_, bind_trace_accept h c dev intf s hsel, ?_⟩
    · rw [bind_unfold_accept h c dev intf s hsel]
      rfl
    · rw [bind_unfold_accept h c dev intf s hsel]
      rfl
    · rw [bind_trace_accept h c dev intf s hsel]
      simp [Call.is_bind_common, List.countP_cons]
  · intro d i a f hmem
    by_cases hsel : (c.cdc_ncm_select_altsetting intf s.kernel.usb).1
        = h.CDC_NCM_COMM_ALTSETTING_NCM
    · rw [bind_trace_accept h c dev intf s hsel] at hmem
      simp at hmem
      obtain ⟨rfl, rfl, rfl, rfl⟩ := hmem
      simp
    · rw [bind_trace_reject h c dev intf s hsel] at hmem
      simp at hmem

/-- C5: when the selector succeeds, the value bind returns is the value
`cdc_ncm_bind_common` returned (called on the state the selector left), whatever it is. -/
theorem bind_forwards_delegate_status (h : Headers) (c : Collab) (dev intf : Nat) (s : State)
    (hsel : (c.cdc_ncm_select_altsetting intf s.kernel.usb).1 = h.CDC_NCM_COMM_ALTSETTING_NCM) :
    (idevice_debug_ncm_bind h c dev intf s).1 =
      (c.cdc_ncm_bind_common dev intf h.CDC_NCM_DATA_ALTSETTING_NCM
        h.CDC_NCM_FLAG_NO_NOTIFICATION_ENDPOINT
        { s.kernel with usb := (c.cdc_ncm_select_altsetting intf s.kernel.usb).2 }).1 := by
  rw [bind_unfold_accept h c dev intf s hsel]
  rfl

/-- C6, as amended: whenever bind calls `cdc_ncm_bind_common` (the selector succeeded),
`dev->net->netdev_ops` points to `idevice_debug_ncm_netdev_ops` after bind, whatever status
`cdc_ncm_bind_common` returned, success or failure. -/
theorem bind_installs_ops_after_delegate (h : Headers) (c : Collab) (dev intf : Nat)
    (s : State)
    (hsel : (c.cdc_ncm_select_altsetting intf s.kernel.usb).1 = h.CDC_NCM_COMM_ALTSETTING_NCM) :
    get_netdev_ops dev (idevice_debug_ncm_bind h c dev intf s).2
      = OpsRef.idevice_debug_ncm_netdev_ops := by
  rw [bind_unfold_accept h c dev intf s hsel]
  simp [get_netdev_ops, set_netdev_ops]

/-- C7: a bind that fails at the selector writes nothing to the bound interface context:
`dev->net`, every `netdev_ops` pointer (that of `dev->net` among them) and the adapter
state are what they were before the call; only the USB-side state is as the selector left
it. -/
theorem bind_reject_leaves_dev (h : Headers) (c : Collab) (dev intf : Nat) (s : State)
    (hsel : (c.cdc_ncm_select_altsetting intf s.kernel.usb).1 ≠ h.CDC_NCM_COMM_ALTSETTING_NCM) :
    (idevice_debug_ncm_bind h c dev intf s).2.kernel.net = s.kernel.net
    ∧ (idevice_debug_ncm_bind h c dev intf s).2.kernel.netdev_ops = s.kernel.netdev_ops
    ∧ (idevice_debug_ncm_bind h c dev intf s).2.kernel.usbnet = s.kernel.usbnet
    ∧ get_netdev_ops dev (idevice_debug_ncm_bind h c dev intf s).2 = get_netdev_ops dev s
    ∧ (idevice_debug_ncm_bind h c dev intf s).2.kernel.usb
        = (c.cdc_ncm_select_altsetting intf s.kernel.usb).2 := by
  rw [bind_unfold_reject h c dev intf s hsel]
  exact ⟨rfl, rfl, rfl, rfl, rfl⟩

/-- Counterexample to C6 as stated: with the selector answering the NCM altsetting and
`cdc_ncm_bind_common` failing with -12 without touching `netdev_ops`, bind returns -12 and
`dev->net->netdev_ops`, which pointed to the table at address 0 before, points to
`idevice_debug_ncm_netdev_ops` after: the table is installed on the failure path too. -/
theorem bind_failed_delegate_still_installs_ops :
    (sample_collab.cdc_ncm_select_altsetting 3 (sample_state 12 0).kernel.usb).1
        = sample_headers.CDC_NCM_COMM_ALTSETTING_NCM
    ∧ (sample_collab.cdc_ncm_bind_common 69 3 sample_headers.CDC_NCM_DATA_ALTSETTING_NCM
          sample_headers.CDC_NCM_FLAG_NO_NOTIFICATION_ENDPOINT (sample_kernel 12 0)).1 = -12
    ∧ (sample_collab.cdc_ncm_bind_common 69 3 sample_headers.CDC_NCM_DATA_ALTSETTING_NCM
          sample_headers.CDC_NCM_FLAG_NO_NOTIFICATION_ENDPOINT
          (sample_kernel 12 0)).2.netdev_ops 5 = OpsRef.foreign 0
    ∧ (idevice_debug_ncm_bind sample_headers sample_collab 69 3 (sample_state 12 0)).1 = -12
    ∧ get_netdev_ops 69 (sample_state 12 0) = OpsRef.foreign 0
    ∧ get_netdev_ops 69
          (idevice_debug_ncm_bind sample_headers sample_collab 69 3 (sample_state 12 0)).2
        = OpsRef.idevice_debug_ncm_netdev_ops
    ∧ get_netdev_ops 69
          (idevice_debug_ncm_bind sample_headers sample_collab 69 3 (sample_state 12 0)).2
        ≠ get_netdev_ops 69 (sample_state 12 0) := by
  decide

/-! ## The static tables -/

/-- C8: in `idevice_debug_ncm_netdev_ops` the open entry is `idevice_debug_ncm_open`, the
eight other populated entries are the collaborator functions `usbnet_stop`,
`usbnet_start_xmit`, `usbnet_tx_timeout`, `usbnet_set_rx_mode`, `dev_get_tstats64`,
`cdc_ncm_change_mtu`, `eth_mac_addr`, `eth_validate_addr`, no member is initialised twice,
and the open entry is the only one that points to a function this driver defines. -/
theorem netdev_ops_overrides_only_open :
    idevice_debug_ncm_netdev_ops.lookup Ndo.ndo_open = some Sym.idevice_debug_ncm_open
    ∧ idevice_debug_ncm_netdev_ops.lookup Ndo.ndo_stop = some Sym.usbnet_stop
    ∧ idevice_debug_ncm_netdev_ops.lookup Ndo.ndo_start_xmit = some Sym.usbnet_start_xmit
    ∧ idevice_debug_ncm_netdev_ops.lookup Ndo.ndo_tx_timeout = some Sym.usbnet_tx_timeout
    ∧ idevice_debug_ncm_netdev_ops.lookup Ndo.ndo_set_rx_mode = some Sym.usbnet_set_rx_mode
    ∧ idevice_debug_ncm_netdev_ops.lookup Ndo.ndo_get_stats64 = some Sym.dev_get_tstats64
    ∧ idevice_debug_ncm_netdev_ops.lookup Ndo.ndo_change_mtu = some Sym.cdc_ncm_change_mtu
    ∧ idevice_debug_ncm_netdev_ops.lookup Ndo.ndo_set_mac_address = some Sym.eth_mac_addr
    ∧ idevice_debug_ncm_netdev_ops.lookup Ndo.ndo_validate_addr = some Sym.eth_validate_addr
    ∧ idevice_debug_ncm_netdev_ops.length = 9
    ∧ (idevice_debug_ncm_netdev_ops.map Prod.fst).Nodup
    ∧ (∀ e ∈ idevice_debug_ncm_netdev_ops,
        (e.2.defined_here = true ↔ e.1 = Ndo.ndo_open)) := by
  decide

/-- C9: the match table is one entry (vendor 0x05ac, class `USB_CLASS_COMM`, subclass
`USB_CDC_SUBCLASS_NCM`, protocol `USB_CDC_PROTO_NONE`) followed by the empty entry; under
exact tuple matching a device/interface tuple is claimed if and only if its four fields
equal these constants, and a tuple with another vendor id is never claimed. -/
theorem devs_match_iff (h : Headers) :
    idevice_debug_ncm_devs h =
        [ { idVendor := 0x05ac, bInterfaceClass := h.USB_CLASS_COMM,
            bInterfaceSubClass := h.USB_CDC_SUBCLASS_NCM,
            bInterfaceProtocol := h.USB_CDC_PROTO_NONE,
            driver_info := InfoRef.cdc_ncm_info },
          usb_device_id.empty ]
    ∧ (∀ t : usb_tuple,
        (usb_match_id (idevice_debug_ncm_devs h) t).isSome = true ↔
          (t.idVendor = 0x05ac ∧ t.bInterfaceClass = h.USB_CLASS_COMM
            ∧ t.bInterfaceSubClass = h.USB_CDC_SUBCLASS_NCM
            ∧ t.bInterfaceProtocol = h.USB_CDC_PROTO_NONE))
    ∧ (∀ t : usb_tuple, t.idVendor ≠ 0x05ac →
        usb_match_id (idevice_debug_ncm_devs h) t = none) := by
  have hne : (USB_VENDOR_AND_INTERFACE_INFO USB_VENDOR_APPLE h.USB_CLASS_COMM
      h.USB_CDC_SUBCLASS_NCM h.USB_CDC_PROTO_NONE InfoRef.cdc_ncm_info)
      ≠ usb_device_id.empty := by
    intro heq
    have hv := congrArg usb_device_id.idVendor heq
    simp [USB_VENDOR_AND_INTERFACE_INFO, usb_device_id.empty, USB_VENDOR_APPLE] at hv
  have hwalk : ∀ t : usb_tuple, usb_match_id (idevice_debug_ncm_devs h) t =
      if usb_match_one (USB_VENDOR_AND_INTERFACE_INFO USB_VENDOR_APPLE h.USB_CLASS_COMM
          h.USB_CDC_SUBCLASS_NCM h.USB_CDC_PROTO_NONE InfoRef.cdc_ncm_info) t
      then some (USB_VENDOR_AND_INTERFACE_INFO USB_VENDOR_APPLE h.USB_CLASS_COMM
          h.USB_CDC_SUBCLASS_NCM h.USB_CDC_PROTO_NONE InfoRef.cdc_ncm_info)
      else none := by
    intro t
    simp [idevice_debug_ncm_devs, usb_match_id, hne]
  have hone : ∀ t : usb_tuple,
      usb_match_one (USB_VENDOR_AND_INTERFACE_INFO USB_VENDOR_APPLE h.USB_CLASS_COMM
          h.USB_CDC_SUBCLASS_NCM h.USB_CDC_PROTO_NONE InfoRef.cdc_ncm_info) t = true ↔
        (t.idVendor = 0x05ac ∧ t.bInterfaceClass = h.USB_CLASS_COMM
          ∧ t.bInterfaceSubClass = h.USB_CDC_SUBCLASS_NCM
          ∧ t.bInterfaceProtocol = h.USB_CDC_PROTO_NONE) := by
    intro t
    simp only [usb_match_one, USB_VENDOR_AND_INTERFACE_INFO, USB_VENDOR_APPLE,
      Bool.and_eq_true, beq_iff_eq]
    constructor
    · rintro ⟨⟨⟨h1, h2⟩, h3⟩, h4⟩
      exact ⟨h1.symm, h2.symm, h3.symm, h4.symm⟩
    · rintro ⟨h1, h2, h3, h4⟩
      exact ⟨⟨⟨h1.symm, h2.symm⟩, h3.symm⟩, h4.symm⟩
  refine ⟨rfl, ?_, ?_⟩
  · intro t
    rw [hwalk t, ← hone t]
    by_cases hm : usb_match_one (USB_VENDOR_AND_INTERFACE_INFO USB_VENDOR_APPLE
        h.USB_CLASS_COMM h.USB_CDC_SUBCLASS_NCM h.USB_CDC_PROTO_NONE InfoRef.cdc_ncm_info) t
        = true
    · simp [hm]
    · simp [hm]
  · intro t hv
    rw [hwalk t]
    have hm : ¬ usb_match_one (USB_VENDOR_AND_INTERFACE_INFO USB_VENDOR_APPLE
        h.USB_CLASS_COMM h.USB_CDC_SUBCLASS_NCM h.USB_CDC_PROTO_NONE InfoRef.cdc_ncm_info) t
        = true := fun hm => hv ((hone t).1 hm).1
    simp [hm]

/-- C10: the flags of `cdc_ncm_info` are exactly the union of `FLAG_POINTTOPOINT`,
`FLAG_NO_SETINT`, `FLAG_MULTI_PACKET`, `FLAG_LINK_INTR` and `FLAG_ETHER`: a bit is set in
the flags if and only if it is set in one of the five, and each of the five is contained
in the flags. -/
theorem cdc_ncm_info_flags_exact (h : Headers) :
    (∀ i : Nat, (cdc_ncm_info h).flags.testBit i =
        (h.FLAG_POINTTOPOINT.testBit i || h.FLAG_NO_SETINT.testBit i
          || h.FLAG_MULTI_PACKET.testBit i || h.FLAG_LINK_INTR.testBit i
          || h.FLAG_ETHER.testBit i))
    ∧ (cdc_ncm_info h).flags &&& h.FLAG_POINTTOPOINT = h.FLAG_POINTTOPOINT
    ∧ (cdc_ncm_info h).flags &&& h.FLAG_NO_SETINT = h.FLAG_NO_SETINT
    ∧ (cdc_ncm_info h).flags &&& h.FLAG_MULTI_PACKET = h.FLAG_MULTI_PACKET
    ∧ (cdc_ncm_info h).flags &&& h.FLAG_LINK_INTR = h.FLAG_LINK_INTR
    ∧ (cdc_ncm_info h).flags &&& h.FLAG_ETHER = h.FLAG_ETHER := by
  have hbits : ∀ i : Nat, (cdc_ncm_info h).flags.testBit i =
      (h.FLAG_POINTTOPOINT.testBit i || h.FLAG_NO_SETINT.testBit i
        || h.FLAG_MULTI_PACKET.testBit i || h.FLAG_LINK_INTR.testBit i
        || h.FLAG_ETHER.testBit i) := by
    intro i
    simp [cdc_ncm_info, Nat.testBit_or]
  refine ⟨hbits, ?_, ?_, ?_, ?_, ?_⟩ <;>
    · apply Nat.eq_of_testBit_eq
      intro i
      rw [Nat.testBit_and, hbits i]
      cases h.FLAG_POINTTOPOINT.testBit i <;> cases h.FLAG_NO_SETINT.testBit i <;>
        cases h.FLAG_MULTI_PACKET.testBit i <;> cases h.FLAG_LINK_INTR.testBit i <;>
        cases h.FLAG_ETHER.testBit i <;> rfl

/-! ## The theorems at concrete inputs -/

/-- The rejecting bind at a concrete input: the selector answers altsetting 1, bind returns
-19 and calls the selector only. -/
theorem bind_reject_enodev_witness :
    (sample_collab.cdc_ncm_select_altsetting 3 (sample_state 0 1).kernel.usb).1
        ≠ sample_headers.CDC_NCM_COMM_ALTSETTING_NCM
    ∧ ((idevice_debug_ncm_bind sample_headers sample_collab 69 3 (sample_state 0 1)).1
          = -sample_headers.ENODEV
      ∧ (idevice_debug_ncm_bind sample_headers sample_collab 69 3 (sample_state 0 1)).2.trace =
          (sample_state 0 1).trace ++ [Call.cdc_ncm_select_altsetting 3]
      ∧ (((idevice_debug_ncm_bind sample_headers sample_collab 69 3
            (sample_state 0 1)).2.trace.drop (sample_state 0 1).trace.length).countP
          Call.is_bind_common = 0)) :=
  ⟨by decide, bind_reject_enodev sample_headers sample_collab 69 3 (sample_state 0 1)
    (by decide)⟩

/-- The accepting bind at a concrete input, with the marking collaborator: the selector
answers altsetting 0 and leaves the USB-side state at 100; the delegate is run once on that
state with data altsetting 1 and flags 0x10, so the adapter state is 100 + 7 + 16; bind
returns the delegate's 0 and `dev->net->netdev_ops` is this driver's table. -/
theorem bind_accept_calls_delegate_witness :
    (marking_collab.cdc_ncm_select_altsetting 3 (sample_state 0 0).kernel.usb).1
        = sample_headers.CDC_NCM_COMM_ALTSETTING_NCM
    ∧ ((idevice_debug_ncm_bind sample_headers marking_collab 69 3 (sample_state 0 0)).1 =
          (marking_collab.cdc_ncm_bind_common 69 3 sample_headers.CDC_NCM_DATA_ALTSETTING_NCM
            sample_headers.CDC_NCM_FLAG_NO_NOTIFICATION_ENDPOINT
            { (sample_state 0 0).kernel with
              usb := (marking_collab.cdc_ncm_select_altsetting 3
                (sample_state 0 0).kernel.usb).2 }).1
      ∧ (idevice_debug_ncm_bind sample_headers marking_collab 69 3
            (sample_state 0 0)).2.kernel =
          { (marking_collab.cdc_ncm_bind_common 69 3
              sample_headers.CDC_NCM_DATA_ALTSETTING_NCM
              sample_headers.CDC_NCM_FLAG_NO_NOTIFICATION_ENDPOINT
              { (sample_state 0 0).kernel with
                usb := (marking_collab.cdc_ncm_select_altsetting 3
                  (sample_state 0 0).kernel.usb).2 }).2 with
            netdev_ops :=
              Function.update
                (marking_collab.cdc_ncm_bind_common 69 3
                  sample_headers.CDC_NCM_DATA_ALTSETTING_NCM
                  sample_headers.CDC_NCM_FLAG_NO_NOTIFICATION_ENDPOINT
                  { (sample_state 0 0).kernel with
                    usb := (marking_collab.cdc_ncm_select_altsetting 3
                      (sample_state 0 0).kernel.usb).2 }).2.netdev_ops
                ((marking_collab.cdc_ncm_bind_common 69 3
                  sample_headers.CDC_NCM_DATA_ALTSETTING_NCM
                  sample_headers.CDC_NCM_FLAG_NO_NOTIFICATION_ENDPOINT
                  { (sample_state 0 0).kernel with
                    usb := (marking_collab.cdc_ncm_select_altsetting 3
                      (sample_state 0 0).kernel.usb).2 }).2.net 69)
                OpsRef.idevice_debug_ncm_netdev_ops }
      ∧ (idevice_debug_ncm_bind sample_headers marking_collab 69 3 (sample_state 0 0)).2.trace =
          (sample_state 0 0).trace ++ [Call.cdc_ncm_select_altsetting 3,
            Call.cdc_ncm_bind_common 69 3 sample_headers.CDC_NCM_DATA_ALTSETTING_NCM
              sample_headers.CDC_NCM_FLAG_NO_NOTIFICATION_ENDPOINT]
      ∧ (((idevice_debug_ncm_bind sample_headers marking_collab 69 3
            (sample_state 0 0)).2.trace.drop (sample_state 0 0).trace.length).countP
          Call.is_bind_common = 1))
    ∧ ((idevice_debug_ncm_bind sample_headers marking_collab 69 3 (sample_state 0 0)).1 = 0
      ∧ (idevice_debug_ncm_bind sample_headers marking_collab 69 3
            (sample_state 0 0)).2.kernel.usb = 100
      ∧ (idevice_debug_ncm_bind sample_headers marking_collab 69 3
            (sample_state 0 0)).2.kernel.usbnet = 123
      ∧ get_netdev_ops 69
            (idevice_debug_ncm_bind sample_headers marking_collab 69 3 (sample_state 0 0)).2
          = OpsRef.idevice_debug_ncm_netdev_ops
      ∧ (idevice_debug_ncm_bind sample_headers marking_collab 69 3 (sample_state 0 0)).2.trace
          = [Call.cdc_ncm_select_altsetting 3, Call.cdc_ncm_bind_common 69 3 1 16]) :=
  ⟨by decide, (bind_accept_calls_delegate sample_headers marking_collab 69 3
    (sample_state 0 0)).1 (by decide), by decide⟩

/-- The forwarded status at a concrete input: the delegate fails with -12 and bind returns
what it returned. -/
theorem bind_forwards_delegate_status_witness :
    (sample_collab.cdc_ncm_select_altsetting 3 (sample_state 12 0).kernel.usb).1
        = sample_headers.CDC_NCM_COMM_ALTSETTING_NCM
    ∧ (idevice_debug_ncm_bind sample_headers sample_collab 69 3 (sample_state 12 0)).1 =
        (sample_collab.cdc_ncm_bind_common 69 3 sample_headers.CDC_NCM_DATA_ALTSETTING_NCM
          sample_headers.CDC_NCM_FLAG_NO_NOTIFICATION_ENDPOINT
          { (sample_state 12 0).kernel with
            usb := (sample_collab.cdc_ncm_select_altsetting 3
              (sample_state 12 0).kernel.usb).2 }).1 :=
  ⟨by decide, bind_forwards_delegate_status sample_headers sample_collab 69 3
    (sample_state 12 0) (by decide)⟩

/-- The installed table at a concrete input: the delegate succeeds and installs a table of
its own, and after bind `dev->net->netdev_ops` is this driver's table. -/
theorem bind_installs_ops_after_delegate_witness :
    (sample_collab.cdc_ncm_select_altsetting 3 (sample_state 0 0).kernel.usb).1
        = sample_headers.CDC_NCM_COMM_ALTSETTING_NCM
    ∧ get_netdev_ops 69
        (idevice_debug_ncm_bind sample_headers sample_collab 69 3 (sample_state 0 0)).2
      = OpsRef.idevice_debug_ncm_netdev_ops :=
  ⟨by decide, bind_installs_ops_after_delegate sample_headers sample_collab 69 3
    (sample_state 0 0) (by decide)⟩

/-- The untouched context at a concrete input: the selector answers altsetting 1 and the
device side of the kernel state is as before. -/
theorem bind_reject_leaves_dev_witness :
    (sample_collab.cdc_ncm_select_altsetting 3 (sample_state 0 1).kernel.usb).1
        ≠ sample_headers.CDC_NCM_COMM_ALTSETTING_NCM
    ∧ ((idevice_debug_ncm_bind sample_headers sample_collab 69 3
          (sample_state 0 1)).2.kernel.net = (sample_state 0 1).kernel.net
      ∧ (idevice_debug_ncm_bind sample_headers sample_collab 69 3
          (sample_state 0 1)).2.kernel.netdev_ops = (sample_state 0 1).kernel.netdev_ops
      ∧ (idevice_debug_ncm_bind sample_headers sample_collab 69 3
          (sample_state 0 1)).2.kernel.usbnet = (sample_state 0 1).kernel.usbnet
      ∧ get_netdev_ops 69
          (idevice_debug_ncm_bind sample_headers sample_collab 69 3 (sample_state 0 1)).2
        = get_netdev_ops 69 (sample_state 0 1)
      ∧ (idevice_debug_ncm_bind sample_headers sample_collab 69 3
          (sample_state 0 1)).2.kernel.usb
        = (sample_collab.cdc_ncm_select_altsetting 3 (sample_state 0 1).kernel.usb).2) :=
  ⟨by decide, bind_reject_leaves_dev sample_headers sample_collab 69 3 (sample_state 0 1)
    (by decide)⟩

/-- The match table at a concrete input: a CDC-NCM interface of a device with vendor id
0x0525 is not claimed. -/
theorem devs_match_iff_witness :
    ({ idVendor := 0x0525, bInterfaceClass := 2, bInterfaceSubClass := 0x0d,
       bInterfaceProtocol := 0 } : usb_tuple).idVendor ≠ 0x05ac
    ∧ usb_match_id (idevice_debug_ncm_devs sample_headers)
        { idVendor := 0x0525, bInterfaceClass := 2, bInterfaceSubClass := 0x0d,
          bInterfaceProtocol := 0 } = none :=
  ⟨by decide, (devs_match_iff sample_headers).2.2
    { idVendor := 0x0525, bInterfaceClass := 2, bInterfaceSubClass := 0x0d,
      bInterfaceProtocol := 0 } (by decide)⟩

end IdeviceDebugNcm
